import Mathlib

/-!
Shallow embedding of the two scoring agents of the ai-trader repository:
`src/agents/fundamentals.py` (`fundamentals_agent`) and
`src/agents/sentiment.py` (`sentiment_agent`).

Python values that may appear as a field of a metrics dict or an insider
transaction dict are modelled by `PyVal`: `PyVal.none` stands for a missing
key or a JSON null (both give `None` after `dict.get`), `PyVal.num q` for an
int/float with exact value `q`, and `PyVal.str ne p` for a string, recording
only the two facts the code observes about a string: whether it is non-empty
(its Python truthiness, `ne`) and what `float(...)` returns on it (`p`,
`Option.none` when `float` raises `ValueError`).  Machine floats are modelled
as exact rationals; the thresholds and inputs in the claims are far from any
rounding boundary.

Python truthiness (`if x`, `x or y`) is modelled by `truthy`/`pyOr`/`optOr`;
Python's bankers `round` by `pyRound`.
-/

set_option autoImplicit false

inductive PyVal where
  | none : PyVal
  | num : ℚ → PyVal
  | str : Bool → Option ℚ → PyVal
deriving DecidableEq

/-- Python truthiness of a `PyVal`: `None` and `0` and `""` are falsy. -/
def truthy : PyVal → Bool
  | PyVal.none => false
  | PyVal.num q => q != 0
  | PyVal.str ne _ => ne

/-- Python `a or b` on raw dict values (returns `a` when `a` is truthy). -/
def pyOr (a b : PyVal) : PyVal :=
  if truthy a then a else b

/-- Python `a or b` where `a, b : Option float` (as after `safe_float`):
`None` and `0.0` are falsy. -/
def optOr (a b : Option ℚ) : Option ℚ :=
  match a with
  | some q => if q != 0 then some q else b
  | Option.none => b

/-- A Python dict as the scorers see it: an association list of string keys.
`PyDict.get` is `dict.get(k)`, yielding `None` (here `PyVal.none`) on a
missing key. -/
abbrev PyDict := List (String × PyVal)

def PyDict.get (d : PyDict) (k : String) : PyVal :=
  match List.lookup k d with
  | some v => v
  | Option.none => PyVal.none

/-- `safe_float` from fundamentals.py: `float(value)`, with `TypeError` /
`ValueError` (from `None` or an unparsable string) caught and turned into
`None`. -/
def safe_float : PyVal → Option ℚ
  | PyVal.none => Option.none
  | PyVal.num q => some q
  | PyVal.str _ p => p

/-- `calculate_net_margin` from fundamentals.py: both operands go through
`safe_float`, and the quotient is returned only when both are truthy
(non-`None` and non-zero). -/
def calculate_net_margin (revenue net_income : PyVal) : Option ℚ :=
  match safe_float revenue, safe_float net_income with
  | some r, some n => if r != 0 && n != 0 then some (n / r) else Option.none
  | _, _ => Option.none

/-- `calculate_operating_margin` from fundamentals.py. -/
def calculate_operating_margin (operating_income revenue : PyVal) : Option ℚ :=
  match safe_float operating_income, safe_float revenue with
  | some o, some r => if r != 0 && o != 0 then some (o / r) else Option.none
  | _, _ => Option.none

/-- The repeated lookup pattern `safe_float(metrics.get(k1) or metrics.get(k2))`
of fundamentals.py. -/
def getOr (m : PyDict) (k1 k2 : String) : Option ℚ :=
  safe_float (pyOr (PyDict.get m k1) (PyDict.get m k2))

/-- The guard pattern `if x and x > t` on an `Option` float. -/
def passGt (x : Option ℚ) (t : ℚ) : Bool :=
  match x with
  | some q => q != 0 && decide (t < q)
  | Option.none => false

/-- The guard pattern `if x and x < t` on an `Option` float. -/
def passLt (x : Option ℚ) (t : ℚ) : Bool :=
  match x with
  | some q => q != 0 && decide (q < t)
  | Option.none => false

def roe (m : PyDict) : Option ℚ :=
  getOr m "return_on_equity" "ReturnOnEquityTTM"

def net_margin (m : PyDict) : Option ℚ :=
  optOr (safe_float (PyDict.get m "net_margin"))
    (calculate_net_margin (PyDict.get m "RevenueTTM") (PyDict.get m "net_income"))

def operating_margin (m : PyDict) : Option ℚ :=
  optOr (safe_float (PyDict.get m "operating_margin"))
    (calculate_operating_margin (PyDict.get m "operating_income") (PyDict.get m "RevenueTTM"))

def profitability_score (m : PyDict) : ℕ :=
  (if passGt (roe m) (15/100) then 1 else 0)
    + (if passGt (net_margin m) (20/100) then 1 else 0)
    + (if passGt (operating_margin m) (15/100) then 1 else 0)

def revenue_growth (m : PyDict) : Option ℚ :=
  getOr m "revenue_growth" "QuarterlyRevenueGrowthYOY"

def earnings_growth (m : PyDict) : Option ℚ :=
  getOr m "earnings_growth" "QuarterlyEarningsGrowthYOY"

def book_value_growth (m : PyDict) : Option ℚ :=
  safe_float (PyDict.get m "book_value_growth")

def growth_score (m : PyDict) : ℕ :=
  (if passGt (revenue_growth m) (10/100) then 1 else 0)
    + (if passGt (earnings_growth m) (10/100) then 1 else 0)
    + (if passGt (book_value_growth m) (10/100) then 1 else 0)

def current_ratio_val (m : PyDict) : Option ℚ :=
  getOr m "current_ratio" "CurrentRatio"

def debt_to_equity (m : PyDict) : Option ℚ :=
  getOr m "debt_to_equity" "DebtToEquityRatio"

def fcf_per_share (m : PyDict) : Option ℚ :=
  safe_float (PyDict.get m "free_cash_flow_per_share")

def eps (m : PyDict) : Option ℚ :=
  safe_float (PyDict.get m "earnings_per_share")

/-- `if fcf_per_share and eps and fcf_per_share > eps * 0.8`. -/
def fcf_check (m : PyDict) : Bool :=
  match fcf_per_share m, eps m with
  | some f, some e => f != 0 && e != 0 && decide (e * (8/10) < f)
  | _, _ => false

def health_score (m : PyDict) : ℕ :=
  (if passGt (current_ratio_val m) (3/2) then 1 else 0)
    + (if passLt (debt_to_equity m) (1/2) then 1 else 0)
    + (if fcf_check m then 1 else 0)

def pe_ratio_val (m : PyDict) : Option ℚ :=
  getOr m "price_to_earnings_ratio" "PERatio"

def pb_ratio_val (m : PyDict) : Option ℚ :=
  getOr m "price_to_book_ratio" "PriceToBookRatio"

def ps_ratio_val (m : PyDict) : Option ℚ :=
  getOr m "price_to_sales_ratio" "PriceToSalesRatioTTM"

def price_ratio_score (m : PyDict) : ℕ :=
  (if passLt (pe_ratio_val m) 25 then 1 else 0)
    + (if passLt (pb_ratio_val m) 3 then 1 else 0)
    + (if passLt (ps_ratio_val m) 5 then 1 else 0)

inductive Signal where
  | bullish : Signal
  | bearish : Signal
  | neutral : Signal
deriving DecidableEq

/-- `'bullish' if score >= 2 else 'bearish' if score == 0 else 'neutral'`. -/
def subSignal (score : ℕ) : Signal :=
  if 2 ≤ score then Signal.bullish else if score = 0 then Signal.bearish else Signal.neutral

/-- The `signals` list built by `fundamentals_agent`, in source order. -/
def fundSignals (m : PyDict) : List Signal :=
  [subSignal (profitability_score m), subSignal (growth_score m),
   subSignal (health_score m), subSignal (price_ratio_score m)]

/-- The shared overall-signal rule of both agents. -/
def majority (bullish_signals bearish_signals : ℕ) : Signal :=
  if bearish_signals < bullish_signals then Signal.bullish
  else if bullish_signals < bearish_signals then Signal.bearish
  else Signal.neutral

/-- Python's `round` on a rational: round half to even, as used in
`f"{round(confidence * 100)}%"`. -/
def pyRound (q : ℚ) : ℤ :=
  if q - (⌊q⌋ : ℚ) < 1/2 then ⌊q⌋
  else if (1/2 : ℚ) < q - (⌊q⌋ : ℚ) then ⌊q⌋ + 1
  else if ⌊q⌋ % 2 = 0 then ⌊q⌋ else ⌊q⌋ + 1

/-- Output of `fundamentals_agent` (the parts of `message_content` the claims
are about): overall signal, raw confidence ratio, the rounded integer
percentage rendered in the message, and the four rubric sub-signals from the
`reasoning` dict, in source order. -/
structure FundResult where
  signal : Signal
  confidence : ℚ
  confidencePct : ℤ
  reasoning : List Signal
deriving DecidableEq

def fundamentals_agent (m : PyDict) : FundResult :=
  let signals := fundSignals m
  let bullish_signals := signals.count Signal.bullish
  let bearish_signals := signals.count Signal.bearish
  let overall_signal := majority bullish_signals bearish_signals
  let confidence : ℚ := (max bullish_signals bearish_signals : ℚ) / (signals.length : ℚ)
  ⟨overall_signal, confidence, pyRound (confidence * 100), signals⟩

/-- The `reasoning` field of the sentiment message: either the no-data marker
string or the `"Bullish signals: ..., Bearish signals: ..."` summary with the
two counts. -/
inductive SentReasoning where
  | noData : SentReasoning
  | counts : ℕ → ℕ → SentReasoning
deriving DecidableEq

structure SentResult where
  signal : Signal
  confidence : ℚ
  confidencePct : ℤ
  reasoning : SentReasoning
deriving DecidableEq

/-- `pd.Series(...).dropna()`: removes the `None` entries (we do not model
float NaN), keeps every number and string. -/
def dropna (xs : List PyVal) : List PyVal :=
  xs.filter (fun v => match v with | PyVal.none => false | _ => true)

/-- Elementwise `series < 0` followed by `np.where(cond, "bearish", "bullish")`:
on a number it yields a signal, on anything else (e.g. a string that survived
`dropna`) the pandas comparison raises `TypeError`. -/
def classify (v : PyVal) : Except Unit Signal :=
  match v with
  | PyVal.num q => Except.ok (if q < 0 then Signal.bearish else Signal.bullish)
  | _ => Except.error ()

def classifyAll : List PyVal → Except Unit (List Signal)
  | [] => Except.ok []
  | v :: vs =>
    match classify v, classifyAll vs with
    | Except.ok s, Except.ok ss => Except.ok (s :: ss)
    | Except.error e, _ => Except.error e
    | _, Except.error e => Except.error e

/-- `sentiment_agent` from sentiment.py, as a function of the
`insider_trades` list.  `Except.error ()` models an uncaught `TypeError`
escaping the agent. -/
def sentiment_agent (insider_trades : List PyDict) : Except Unit SentResult :=
  let transaction_shares :=
    dropna (insider_trades.map (fun t => PyDict.get t "transaction_shares"))
  if transaction_shares.isEmpty then
    Except.ok ⟨Signal.neutral, 0, pyRound (0 * 100), SentReasoning.noData⟩
  else
    match classifyAll transaction_shares with
    | Except.error e => Except.error e
    | Except.ok signals =>
      let bullish_signals := signals.count Signal.bullish
      let bearish_signals := signals.count Signal.bearish
      let overall_signal := majority bullish_signals bearish_signals
      let confidence : ℚ := (max bullish_signals bearish_signals : ℚ) / (signals.length : ℚ)
      Except.ok ⟨overall_signal, confidence, pyRound (confidence * 100),
        SentReasoning.counts bullish_signals bearish_signals⟩

/-- An insider transaction whose `transaction_shares` is the number `q`. -/
def txn (q : ℚ) : PyDict :=
  [("transaction_shares", PyVal.num q)]

/-- An insider transaction whose `transaction_shares` is either missing or a
number. -/
def otxn : Option ℚ → PyDict
  | Option.none => []
  | some q => txn q

/-- The per-element classification `np.where(q < 0, "bearish", "bullish")` on
a numeric share count. -/
def pySignal (q : ℚ) : Signal :=
  if q < 0 then Signal.bearish else Signal.bullish

/-- Number of non-negative share counts in a list (the transactions the code
classifies as bullish). -/
def bullCount (qs : List ℚ) : ℕ :=
  (qs.filter (fun q => decide (0 ≤ q))).length

/-- Number of strictly negative share counts in a list (the transactions the
code classifies as bearish). -/
def bearCount (qs : List ℚ) : ℕ :=
  (qs.filter (fun q => decide (q < 0))).length

theorem pyRound_intCast (z : ℤ) : pyRound ((z : ℚ)) = z := by
  norm_num [pyRound]

theorem pyRound_natCast (n : ℕ) : pyRound ((n : ℚ)) = n := by
  exact_mod_cast pyRound_intCast (n : ℤ)

theorem floor_le_pyRound (q : ℚ) : ⌊q⌋ ≤ pyRound q := by
  unfold pyRound
  split_ifs <;> omega

theorem le_pyRound (c : ℤ) (q : ℚ) (h : (c : ℚ) ≤ q) : c ≤ pyRound q :=
  le_trans (Int.le_floor.mpr h) (floor_le_pyRound q)

theorem pyRound_div4 (k : ℕ) : pyRound ((k : ℚ) / 4 * 100) = 25 * k := by
  have h : ((k : ℚ) / 4 * 100) = ((25 * k : ℕ) : ℚ) := by push_cast; ring
  rw [h, pyRound_natCast]
  push_cast
  ring

theorem dropna_txn (qs : List ℚ) :
    dropna ((qs.map txn).map (fun t => PyDict.get t "transaction_shares"))
      = qs.map PyVal.num := by
  induction qs with
  | nil => rfl
  | cons q qs ih => simpa [dropna, txn, PyDict.get, List.filter] using ih

theorem dropna_otxn (os : List (Option ℚ)) :
    dropna ((os.map otxn).map (fun t => PyDict.get t "transaction_shares"))
      = (os.reduceOption).map PyVal.num := by
  induction os with
  | nil => rfl
  | cons o os ih =>
    cases o with
    | none => simpa [dropna, otxn, PyDict.get, List.filter] using ih
    | some q => simpa [dropna, otxn, txn, PyDict.get, List.filter] using ih

theorem classifyAll_num (qs : List ℚ) :
    classifyAll (qs.map PyVal.num) = Except.ok (qs.map pySignal) := by
  induction qs with
  | nil => rfl
  | cons q qs ih => simp [classifyAll, classify, pySignal, ih]

theorem count_pySignal_bullish (qs : List ℚ) :
    (qs.map pySignal).count Signal.bullish = bullCount qs := by
  unfold bullCount
  induction qs with
  | nil => rfl
  | cons q qs ih =>
    by_cases h : q < 0
    · simpa [pySignal, h, List.count_cons, List.filter, not_le.mpr h] using ih
    · simpa [pySignal, h, List.count_cons, List.filter, not_lt.mp h] using ih

theorem count_pySignal_bearish (qs : List ℚ) :
    (qs.map pySignal).count Signal.bearish = bearCount qs := by
  unfold bearCount
  induction qs with
  | nil => rfl
  | cons q qs ih =>
    by_cases h : q < 0
    · simpa [pySignal, h, List.count_cons, List.filter] using ih
    · simpa [pySignal, h, List.count_cons, List.filter] using ih

theorem bullCount_add_bearCount (qs : List ℚ) :
    bullCount qs + bearCount qs = qs.length := by
  unfold bullCount bearCount
  induction qs with
  | nil => rfl
  | cons q qs ih =>
    by_cases h : q < 0
    · simp [List.filter_cons, h, not_le.mpr h]
      omega
    · simp [List.filter_cons, h, not_lt.mp h]
      omega

/-- Evaluation of the sentiment agent on a non-empty list of transactions
that all carry a numeric share count. -/
theorem sentiment_eval (qs : List ℚ) (h : qs ≠ []) :
    sentiment_agent (qs.map txn)
      = Except.ok ⟨majority (bullCount qs) (bearCount qs),
          (max (bullCount qs) (bearCount qs) : ℚ) / (qs.length : ℚ),
          pyRound ((max (bullCount qs) (bearCount qs) : ℚ) / (qs.length : ℚ) * 100),
          SentReasoning.counts (bullCount qs) (bearCount qs)⟩ := by
  have hne : (qs.map PyVal.num).isEmpty = false := by
    simp [List.isEmpty_iff, h]
  unfold sentiment_agent
  simp only [dropna_txn, classifyAll_num, hne, Bool.false_eq_true, if_false,
    count_pySignal_bullish, count_pySignal_bearish, List.length_map]

/-- Projection lemma: the overall fundamentals signal is the majority vote of
the four rubric sub-signals. -/
theorem fundamentals_signal_def (m : PyDict) :
    (fundamentals_agent m).signal
      = majority ((fundSignals m).count Signal.bullish) ((fundSignals m).count Signal.bearish) :=
  rfl

/-- Projection lemma: the rendered fundamentals confidence percentage. -/
theorem fundamentals_confidencePct_def (m : PyDict) :
    (fundamentals_agent m).confidencePct
      = pyRound ((max ((fundSignals m).count Signal.bullish)
            ((fundSignals m).count Signal.bearish) : ℚ)
          / ((fundSignals m).length : ℚ) * 100) :=
  rfl

/-- Evaluation of the fundamentals agent on a snapshot in which every field
lookup yields `None`: all rubric scores are 0, so all four sub-signals are
`bearish` and the agent reports `bearish` with confidence 100%. -/
theorem fundamentals_agent_all_none (m : PyDict) (h : ∀ k, PyDict.get m k = PyVal.none) :
    fundamentals_agent m
      = ⟨Signal.bearish, 1, 100,
         [Signal.bearish, Signal.bearish, Signal.bearish, Signal.bearish]⟩ := by
  simp only [fundamentals_agent, fundSignals, profitability_score, growth_score, health_score,
    price_ratio_score, roe, net_margin, operating_margin, revenue_growth, earnings_growth,
    book_value_growth, current_ratio_val, debt_to_equity, fcf_per_share, eps, fcf_check,
    pe_ratio_val, pb_ratio_val, ps_ratio_val, getOr, optOr, pyOr, truthy, safe_float,
    calculate_net_margin, calculate_operating_margin, passGt, passLt, subSignal, majority, h]
  norm_num [pyRound, List.count_cons, List.count_nil,
    (by decide : ¬ (Signal.bearish = Signal.bullish))]

/-- C1: the claim states that an all-missing snapshot scores `neutral` with
confidence 0; on the code the empty snapshot instead yields four `bearish`
sub-signals (a rubric score of 0 maps to `bearish`), overall `bearish`,
confidence 100%. -/
theorem C1_counterexample :
    (fundamentals_agent []).signal = Signal.bearish
      ∧ (fundamentals_agent []).confidencePct = 100
      ∧ ¬ ((fundamentals_agent []).signal = Signal.neutral
            ∧ (fundamentals_agent []).confidencePct = 0) := by
  have h : fundamentals_agent ([] : PyDict)
      = ⟨Signal.bearish, 1, 100,
         [Signal.bearish, Signal.bearish, Signal.bearish, Signal.bearish]⟩ :=
    fundamentals_agent_all_none [] (fun _ => rfl)
  rw [h]
  exact ⟨rfl, rfl, by simp⟩

/-- C1 (amended): for every snapshot in which every field is missing, the
fundamentals agent returns overall signal `bearish` (0 points in all 4 rubrics
give 4 bearish sub-signals and 0 bullish ones) and confidence 100%. -/
theorem C1_all_missing_bearish (m : PyDict) (h : ∀ k, PyDict.get m k = PyVal.none) :
    fundamentals_agent m
      = ⟨Signal.bearish, 1, 100,
         [Signal.bearish, Signal.bearish, Signal.bearish, Signal.bearish]⟩ :=
  fundamentals_agent_all_none m h

/-- Witness for C1 (amended) at the empty snapshot. -/
theorem C1_all_missing_bearish_witness :
    fundamentals_agent []
      = ⟨Signal.bearish, 1, 100,
         [Signal.bearish, Signal.bearish, Signal.bearish, Signal.bearish]⟩ :=
  C1_all_missing_bearish [] (fun _ => rfl)

/-- C2: for every snapshot, the overall fundamentals signal is the majority
vote over the 4 rubric sub-signals (neutral sub-signals counting toward
neither side), and the reported confidence is `round(max(bullish, bearish) / 4
* 100)`, always one of 0, 25, 50, 75, 100. -/
theorem C2_aggregation (m : PyDict) :
    (fundamentals_agent m).signal
        = majority ((fundSignals m).count Signal.bullish) ((fundSignals m).count Signal.bearish)
      ∧ (fundamentals_agent m).confidencePct
        = pyRound ((max ((fundSignals m).count Signal.bullish)
              ((fundSignals m).count Signal.bearish) : ℚ) / 4 * 100)
      ∧ (fundamentals_agent m).confidencePct ∈ ([0, 25, 50, 75, 100] : List ℤ) := by
  have hlen : (fundSignals m).length = 4 := by simp [fundSignals]
  have hlenQ : ((fundSignals m).length : ℚ) = 4 := by rw [hlen]; norm_num
  have hb : (fundSignals m).count Signal.bullish ≤ 4 := hlen ▸ List.count_le_length _ _
  have hs : (fundSignals m).count Signal.bearish ≤ 4 := hlen ▸ List.count_le_length _ _
  refine ⟨rfl, ?_, ?_⟩
  · rw [fundamentals_confidencePct_def, hlenQ]
  · rw [fundamentals_confidencePct_def, hlenQ, ← Nat.cast_max, pyRound_div4]
    have hk : max ((fundSignals m).count Signal.bullish)
        ((fundSignals m).count Signal.bearish) ≤ 4 := max_le hb hs
    set k := max ((fundSignals m).count Signal.bullish)
        ((fundSignals m).count Signal.bearish) with hkdef
    interval_cases k <;> decide

/-- C3: the claim says the net margin equals the canonical `net_margin` field
whenever it is present and numeric; on the snapshot where `net_margin` is the
number 0 and `RevenueTTM` / `net_income` are 1000 / 300, the code instead
computes 300/1000 = 0.3 (a zero canonical value is falsy and falls through
the Python `or` to the component computation), so the value used is not the
canonical field. -/
theorem C3_counterexample :
    safe_float (PyDict.get
        [("net_margin", PyVal.num 0), ("RevenueTTM", PyVal.num 1000),
         ("net_income", PyVal.num 300)] "net_margin") = some 0
      ∧ net_margin
          [("net_margin", PyVal.num 0), ("RevenueTTM", PyVal.num 1000),
           ("net_income", PyVal.num 300)] = some (3/10)
      ∧ net_margin
            [("net_margin", PyVal.num 0), ("RevenueTTM", PyVal.num 1000),
             ("net_income", PyVal.num 300)]
          ≠ safe_float (PyDict.get
              [("net_margin", PyVal.num 0), ("RevenueTTM", PyVal.num 1000),
               ("net_income", PyVal.num 300)] "net_margin") := by
  have h : net_margin
      [("net_margin", PyVal.num 0), ("RevenueTTM", PyVal.num 1000),
       ("net_income", PyVal.num 300)] = some (300 / 1000) := by
    simp +decide [net_margin, optOr, calculate_net_margin, safe_float, PyDict.get, List.lookup]
  have h2 : safe_float (PyDict.get
      [("net_margin", PyVal.num 0), ("RevenueTTM", PyVal.num 1000),
       ("net_income", PyVal.num 300)] "net_margin") = some 0 := rfl
  rw [h, h2]
  refine ⟨rfl, ?_, ?_⟩
  · norm_num
  · norm_num

/-- C3 (amended): the net margin used by the profitability rubric equals the
canonical `net_margin` field when that parses to a nonzero number; otherwise
it is computed as `net_income / revenue` when both parse to nonzero numbers;
otherwise it is unknown — in particular, when `RevenueTTM` parses to 0 the
component computation yields unknown (not a computed zero or infinity) and
the net-margin check does not pass. -/
theorem C3_net_margin_fallback (m : PyDict) :
    (∀ q : ℚ, safe_float (PyDict.get m "net_margin") = some q → q ≠ 0 →
        net_margin m = some q)
      ∧ ((safe_float (PyDict.get m "net_margin") = Option.none
            ∨ safe_float (PyDict.get m "net_margin") = some 0) →
          ∀ r n : ℚ, safe_float (PyDict.get m "RevenueTTM") = some r →
            safe_float (PyDict.get m "net_income") = some n → r ≠ 0 → n ≠ 0 →
            net_margin m = some (n / r))
      ∧ ((safe_float (PyDict.get m "net_margin") = Option.none
            ∨ safe_float (PyDict.get m "net_margin") = some 0) →
          calculate_net_margin (PyDict.get m "RevenueTTM") (PyDict.get m "net_income")
              = Option.none →
          net_margin m = Option.none)
      ∧ (safe_float (PyDict.get m "RevenueTTM") = some 0 →
          calculate_net_margin (PyDict.get m "RevenueTTM") (PyDict.get m "net_income")
              = Option.none
            ∧ ((safe_float (PyDict.get m "net_margin") = Option.none
                  ∨ safe_float (PyDict.get m "net_margin") = some 0) →
                net_margin m = Option.none
                  ∧ passGt (net_margin m) (20/100) = false)) := by
  have hcalc0 : safe_float (PyDict.get m "RevenueTTM") = some 0 →
      calculate_net_margin (PyDict.get m "RevenueTTM") (PyDict.get m "net_income")
        = Option.none := by
    intro h0
    unfold calculate_net_margin
    rw [h0]
    cases safe_float (PyDict.get m "net_income") <;> simp
  have hfall : (safe_float (PyDict.get m "net_margin") = Option.none
        ∨ safe_float (PyDict.get m "net_margin") = some 0) →
      net_margin m
        = calculate_net_margin (PyDict.get m "RevenueTTM") (PyDict.get m "net_income") := by
    intro hc
    unfold net_margin
    rcases hc with hc | hc <;> rw [hc] <;> simp [optOr]
  refine ⟨?_, ?_, ?_, ?_⟩
  · intro q hq hq0
    unfold net_margin
    rw [hq]
    simp [optOr, hq0]
  · intro hc r n hr hn hr0 hn0
    rw [hfall hc]
    unfold calculate_net_margin
    rw [hr, hn]
    simp [hr0, hn0]
  · intro hc hnone
    rw [hfall hc, hnone]
  · intro h0
    refine ⟨hcalc0 h0, ?_⟩
    intro hc
    have hm : net_margin m = Option.none := by rw [hfall hc, hcalc0 h0]
    exact ⟨hm, by rw [hm]; rfl⟩

/-- Witness for C3 (amended): canonical field absent, `RevenueTTM` 1000 and
`net_income` 300 give net margin 300/1000. -/
theorem C3_net_margin_fallback_witness :
    net_margin [("RevenueTTM", PyVal.num 1000), ("net_income", PyVal.num 300)]
      = some (300 / 1000) :=
  (C3_net_margin_fallback
      [("RevenueTTM", PyVal.num 1000), ("net_income", PyVal.num 300)]).2.1
    (Or.inl rfl) 1000 300 rfl rfl (by norm_num) (by norm_num)

/-- C4: the claim says a parsed debt-to-equity strictly below 0.5 always earns
the debt point; on the snapshot where `debt_to_equity` is the number 0 the
field parses to 0 < 0.5 yet no point is awarded (0 is falsy, so the lookup
falls through to the absent alternate and the guard sees unknown). -/
theorem C4_counterexample :
    safe_float (PyDict.get [("debt_to_equity", PyVal.num 0)] "debt_to_equity") = some 0
      ∧ ((0 : ℚ) < 1/2)
      ∧ passLt (debt_to_equity [("debt_to_equity", PyVal.num 0)]) (1/2) = false
      ∧ health_score [("debt_to_equity", PyVal.num 0)] = 0 := by
  refine ⟨rfl, by norm_num, ?_, ?_⟩
  · simp +decide [passLt, debt_to_equity, getOr, pyOr, truthy, safe_float, PyDict.get,
      List.lookup]
  · simp +decide [health_score, passGt, passLt, fcf_check, debt_to_equity, current_ratio_val,
      fcf_per_share, eps, getOr, pyOr, truthy, safe_float, PyDict.get, List.lookup]

/-- C4 (amended): whenever the debt-to-equity lookup (canonical field, falling
through Python `or` to the alternate) parses to a nonzero number strictly less
than 0.5, the financial-health rubric awards its debt point. -/
theorem C4_debt_point (m : PyDict) (q : ℚ) (hq : debt_to_equity m = some q)
    (h0 : q ≠ 0) (hlt : q < 1/2) :
    passLt (debt_to_equity m) (1/2) = true ∧ 1 ≤ health_score m := by
  have hp : passLt (debt_to_equity m) (1/2) = true := by
    rw [hq]
    simp only [passLt, Bool.and_eq_true, bne_iff_ne, ne_eq, decide_eq_true_eq]
    exact ⟨h0, hlt⟩
  refine ⟨hp, ?_⟩
  unfold health_score
  rw [hp]
  simp only [if_true]
  omega

/-- Witness for C4 (amended) at a snapshot with debt-to-equity 1/4. -/
theorem C4_debt_point_witness :
    passLt (debt_to_equity [("debt_to_equity", PyVal.num (1/4))]) (1/2) = true
      ∧ 1 ≤ health_score [("debt_to_equity", PyVal.num (1/4))] :=
  C4_debt_point _ (1/4)
    (by norm_num [debt_to_equity, getOr, pyOr, truthy, safe_float, PyDict.get])
    (by norm_num) (by norm_num)

/-- C5: the claim says a present numeric canonical field is always preferred
over the alternate; on the snapshot where `price_to_earnings_ratio` is the
number 0 and `PERatio` is 10, the code uses 10 from the alternate (Python `or`
is truthiness-based, and 0 is falsy), even earning the P/E point from it. -/
theorem C5_counterexample :
    PyDict.get [("price_to_earnings_ratio", PyVal.num 0), ("PERatio", PyVal.num 10)]
        "price_to_earnings_ratio" = PyVal.num 0
      ∧ pe_ratio_val [("price_to_earnings_ratio", PyVal.num 0), ("PERatio", PyVal.num 10)]
          = some 10
      ∧ pe_ratio_val [("price_to_earnings_ratio", PyVal.num 0), ("PERatio", PyVal.num 10)]
          ≠ safe_float (PyDict.get
              [("price_to_earnings_ratio", PyVal.num 0), ("PERatio", PyVal.num 10)]
              "price_to_earnings_ratio")
      ∧ passLt (pe_ratio_val
            [("price_to_earnings_ratio", PyVal.num 0), ("PERatio", PyVal.num 10)]) 25
          = true := by
  refine ⟨rfl, ?_, ?_, ?_⟩
  · simp +decide [pe_ratio_val, getOr, pyOr, truthy, safe_float, PyDict.get, List.lookup]
  · simp +decide [pe_ratio_val, getOr, pyOr, truthy, safe_float, PyDict.get, List.lookup]
  · simp +decide [passLt, pe_ratio_val, getOr, pyOr, truthy, safe_float, PyDict.get,
      List.lookup]

/-- C5 (amended): the canonical field wins only when it is truthy: if the
canonical value is truthy (in particular a nonzero number) it is used and the
alternate is ignored, and if it is falsy (missing, null, zero, or the empty
string) the alternate is consulted instead. -/
theorem C5_first_present (m : PyDict) (k1 k2 : String) :
    (truthy (PyDict.get m k1) = true → getOr m k1 k2 = safe_float (PyDict.get m k1))
      ∧ (truthy (PyDict.get m k1) = false → getOr m k1 k2 = safe_float (PyDict.get m k2))
      ∧ (∀ q : ℚ, PyDict.get m k1 = PyVal.num q → q ≠ 0 → getOr m k1 k2 = some q)
      ∧ (∀ q : ℚ, PyDict.get m "price_to_earnings_ratio" = PyVal.num q → q ≠ 0 →
          pe_ratio_val m = some q) := by
  have h3 : ∀ q : ℚ, PyDict.get m "price_to_earnings_ratio" = PyVal.num q → q ≠ 0 →
      pe_ratio_val m = some q := by
    intro q hq hq0
    unfold pe_ratio_val getOr pyOr
    rw [hq]
    simp [truthy, safe_float, hq0]
  refine ⟨?_, ?_, ?_, h3⟩
  · intro ht
    unfold getOr pyOr
    rw [ht]
    simp
  · intro ht
    unfold getOr pyOr
    rw [ht]
    simp
  · intro q hq hq0
    unfold getOr pyOr
    rw [hq]
    simp [truthy, safe_float, hq0]

/-- Witness for C5 (amended): a nonzero canonical P/E of 10 is used even
though the alternate holds 99. -/
theorem C5_first_present_witness :
    pe_ratio_val [("price_to_earnings_ratio", PyVal.num 10), ("PERatio", PyVal.num 99)]
      = some 10 :=
  (C5_first_present _ "price_to_earnings_ratio" "PERatio").2.2.2 10 rfl (by norm_num)

theorem dropna_cons_none (xs : List PyVal) : dropna (PyVal.none :: xs) = dropna xs :=
  rfl

theorem dropna_all_none (ts : List PyDict)
    (h : ∀ t ∈ ts, PyDict.get t "transaction_shares" = PyVal.none) :
    dropna (ts.map (fun t => PyDict.get t "transaction_shares")) = [] := by
  induction ts with
  | nil => rfl
  | cons t ts ih =>
    have ht : PyDict.get t "transaction_shares" = PyVal.none := h t (by simp)
    have hts : ∀ u ∈ ts, PyDict.get u "transaction_shares" = PyVal.none :=
      fun u hu => h u (List.mem_cons_of_mem _ hu)
    rw [List.map_cons, ht, dropna_cons_none]
    exact ih hts

/-- Deleting the transactions with a missing share count does not change the
sentiment result: the dropped series is the same. -/
theorem sentiment_agent_otxn (os : List (Option ℚ)) :
    sentiment_agent (os.map otxn) = sentiment_agent ((os.reduceOption).map txn) := by
  unfold sentiment_agent
  simp only [dropna_otxn, dropna_txn]

/-- C6: for every non-empty list of numeric share counts, each negative count
is classified bearish and each non-negative one (zero included) bullish, the
reasoning reporting exactly those counts and the overall signal their
majority vote; in particular on shares [-100, 50, 0, -5] the agent returns
neutral (2 bearish vs 2 bullish) with confidence 2/4 = 50%. -/
theorem C6_sentiment (qs : List ℚ) (h : qs ≠ []) :
    (∃ r : SentResult,
        sentiment_agent (qs.map txn) = Except.ok r
          ∧ r.reasoning = SentReasoning.counts (bullCount qs) (bearCount qs)
          ∧ r.signal = majority (bullCount qs) (bearCount qs))
      ∧ sentiment_agent (([-100, 50, 0, -5] : List ℚ).map txn)
          = Except.ok ⟨Signal.neutral, 1/2, 50, SentReasoning.counts 2 2⟩ := by
  constructor
  · exact ⟨_, sentiment_eval qs h, rfl, rfl⟩
  · rw [sentiment_eval ([-100, 50, 0, -5] : List ℚ) (by simp)]
    have hb : bullCount ([-100, 50, 0, -5] : List ℚ) = 2 := by
      norm_num [bullCount, List.filter]
    have hs : bearCount ([-100, 50, 0, -5] : List ℚ) = 2 := by
      norm_num [bearCount, List.filter]
    rw [hb, hs]
    norm_num [majority, pyRound]

/-- Witness for C6 at the singleton share list [1]. -/
theorem C6_sentiment_witness :
    (∃ r : SentResult,
        sentiment_agent (([1] : List ℚ).map txn) = Except.ok r
          ∧ r.reasoning = SentReasoning.counts (bullCount [1]) (bearCount [1])
          ∧ r.signal = majority (bullCount [1]) (bearCount [1]))
      ∧ sentiment_agent (([-100, 50, 0, -5] : List ℚ).map txn)
          = Except.ok ⟨Signal.neutral, 1/2, 50, SentReasoning.counts 2 2⟩ :=
  C6_sentiment [1] (by simp)

/-- C7: the claim says zero-share transactions are excluded from scoring; on
the single transaction with share count 0 the code keeps it, classifies it
bullish, and reports bullish with confidence 100% over a total of 1 — not the
no-data neutral result exclusion would produce. -/
theorem C7_counterexample :
    sentiment_agent [txn 0]
        = Except.ok ⟨Signal.bullish, 1, 100, SentReasoning.counts 1 0⟩
      ∧ sentiment_agent [txn 0] ≠ sentiment_agent [] := by
  have h1 : sentiment_agent [txn 0]
      = Except.ok ⟨Signal.bullish, 1, 100, SentReasoning.counts 1 0⟩ := by
    simp [sentiment_agent, dropna, List.filter, txn, PyDict.get, classifyAll, classify,
      majority]
    norm_num [pyRound]
  refine ⟨h1, ?_⟩
  intro heq
  have h0 : sentiment_agent ([] : List PyDict)
      = Except.ok ⟨Signal.neutral, 0, pyRound (0 * 100), SentReasoning.noData⟩ := rfl
  rw [h1, h0] at heq
  simp [(by decide : ¬ (Signal.bullish = Signal.neutral))] at heq

/-- C7 (amended): transactions with a missing share count are excluded from
scoring entirely — the agent behaves exactly as if they were deleted from the
input — while a zero-share transaction is retained and classified bullish. -/
theorem C7_missing_excluded :
    (∀ os : List (Option ℚ),
        sentiment_agent (os.map otxn) = sentiment_agent ((os.reduceOption).map txn))
      ∧ classify (PyVal.num 0) = Except.ok Signal.bullish := by
  refine ⟨sentiment_agent_otxn, ?_⟩
  norm_num [classify]

/-- C8: on the empty transaction list, or on any list whose transactions all
lack a transaction_shares value, the sentiment agent returns neutral,
confidence 0, and the no-data reasoning marker — a distinct terminal branch,
not a 0/0 division. -/
theorem C8_no_data (trades : List PyDict)
    (h : trades = [] ∨ ∀ t ∈ trades, PyDict.get t "transaction_shares" = PyVal.none) :
    sentiment_agent trades
      = Except.ok ⟨Signal.neutral, 0, 0, SentReasoning.noData⟩ := by
  have hser : dropna (trades.map (fun t => PyDict.get t "transaction_shares")) = [] := by
    rcases h with h | h
    · rw [h]; rfl
    · exact dropna_all_none trades h
  unfold sentiment_agent
  simp only [hser, List.isEmpty_nil, if_true]
  norm_num [pyRound]

/-- Witness for C8 at the empty list. -/
theorem C8_no_data_witness :
    sentiment_agent [] = Except.ok ⟨Signal.neutral, 0, 0, SentReasoning.noData⟩ :=
  C8_no_data [] (Or.inl rfl)

/-- C9: the claim says no individual field content can fail a whole
evaluation; but a transaction whose share count is a non-numeric string is
not removed by dropna, and the pandas comparison with 0 then raises, so the
sentiment evaluation fails as a whole. -/
theorem C9_counterexample :
    PyDict.get [("transaction_shares", PyVal.str true Option.none)] "transaction_shares"
        = PyVal.str true Option.none
      ∧ safe_float (PyVal.str true Option.none) = Option.none
      ∧ sentiment_agent [[("transaction_shares", PyVal.str true Option.none)]]
          = Except.error () := by
  exact ⟨rfl, rfl, rfl⟩

/-- C9 (amended): in the fundamentals scorer, safe_float maps absent, null,
and non-numeric values to the unknown sentinel and an unknown value never
earns a check, so no field content fails the fundamentals evaluation; in the
sentiment scorer, only absent/null share counts are filtered out — on
missing-or-numeric share data the agent always returns a result, but any
string share count (parsable or not) survives the filter and makes the
classification raise. -/
theorem C9_field_missingness :
    (safe_float PyVal.none = Option.none)
      ∧ (∀ b : Bool, safe_float (PyVal.str b Option.none) = Option.none)
      ∧ (∀ t : ℚ, passGt Option.none t = false ∧ passLt Option.none t = false)
      ∧ (∀ os : List (Option ℚ), ∃ r : SentResult,
          sentiment_agent (os.map otxn) = Except.ok r)
      ∧ (∀ (b : Bool) (p : Option ℚ), classify (PyVal.str b p) = Except.error ()) := by
  refine ⟨rfl, fun b => rfl, fun t => ⟨rfl, rfl⟩, ?_, fun b p => rfl⟩
  intro os
  rw [sentiment_agent_otxn os]
  cases hq : os.reduceOption with
  | nil => exact ⟨_, rfl⟩
  | cons q qs => exact ⟨_, sentiment_eval (q :: qs) (by simp)⟩

/-- C10: for every transaction list whose share values are each missing or
numeric, with at least one numeric value, the retained transactions are each
classified bullish or bearish, so the majority count is at least half the
total: the confidence ratio is at least 1/2 and the reported percentage at
least 50. -/
theorem C10_confidence_floor (os : List (Option ℚ)) (h : ∃ q : ℚ, some q ∈ os) :
    ∃ r : SentResult, sentiment_agent (os.map otxn) = Except.ok r
      ∧ (1/2 : ℚ) ≤ r.confidence ∧ (50 : ℤ) ≤ r.confidencePct := by
  obtain ⟨q0, hq0⟩ := h
  have hne : os.reduceOption ≠ [] := by
    intro hnil
    have hmem : q0 ∈ os.reduceOption := List.reduceOption_mem_iff.mpr hq0
    rw [hnil] at hmem
    exact absurd hmem (List.not_mem_nil q0)
  rw [sentiment_agent_otxn os]
  rw [sentiment_eval os.reduceOption hne]
  refine ⟨_, rfl, ?_, ?_⟩
  all_goals
    have hsum : bullCount os.reduceOption + bearCount os.reduceOption
        = os.reduceOption.length := bullCount_add_bearCount os.reduceOption
  all_goals
    have hmax1 : bullCount os.reduceOption ≤ max (bullCount os.reduceOption)
        (bearCount os.reduceOption) := le_max_left _ _
  all_goals
    have hmax2 : bearCount os.reduceOption ≤ max (bullCount os.reduceOption)
        (bearCount os.reduceOption) := le_max_right _ _
  all_goals
    have hlen : 0 < os.reduceOption.length := List.length_pos.mpr hne
  all_goals
    have hlenQ : (0 : ℚ) < (os.reduceOption.length : ℚ) := by exact_mod_cast hlen
  all_goals
    have hhalf : (1/2 : ℚ) ≤ (max (bullCount os.reduceOption) (bearCount os.reduceOption) : ℚ)
        / (os.reduceOption.length : ℚ) := by
      rw [le_div_iff₀ hlenQ]
      have h2 : os.reduceOption.length ≤ 2 * max (bullCount os.reduceOption)
          (bearCount os.reduceOption) := by omega
      have h2Q : (os.reduceOption.length : ℚ) ≤ 2 * (max (bullCount os.reduceOption)
          (bearCount os.reduceOption) : ℚ) := by exact_mod_cast h2
      push_cast at h2Q ⊢
      linarith
  · exact hhalf
  · exact le_pyRound 50 _ (by push_cast at hhalf ⊢; linarith)

/-- Witness for C10 at the single-transaction list with share count 1. -/
theorem C10_confidence_floor_witness :
    ∃ r : SentResult, sentiment_agent ([some 1].map otxn) = Except.ok r
      ∧ (1/2 : ℚ) ≤ r.confidence ∧ (50 : ℤ) ≤ r.confidencePct :=
  C10_confidence_floor [some 1] ⟨1, by simp⟩

